import Mathlib

/-!
Shallow embedding of the Name Resolution Cache of the alerts dashboard
(backend/internal/services/name_service.go) and verification of its
specification claims.

Modelling conventions:
- Time is a Nat measured in nanoseconds (mirroring Go time.Duration);
  the current instant is passed explicitly as a parameter called now,
  and time.Since(t) becomes now - t (truncated subtraction; the clock
  is monotone, so timestamps of stored entries never exceed now).
- The Go map cache is an association list with unique keys maintained
  by construction; cacheLookup finds the first binding, cacheInsert
  overwrites in place, mirroring map reads and writes.
- The TiDB connection is an oracle structure: each of the five query
  shapes is a function returning Except Unit of its row type, where
  an error value models a transport-level query failure and, for the
  row queries, a none result models sql.ErrNoRows. db.TiDB == nil is
  modelled as an Option TiDB being none.
- The miss logger is always set after initialisation (initMissLogger
  falls back to stderr on failure and never leaves it nil), so logMiss
  always emits; emitted (id, reason) pairs are collected in the misses
  field of the result rather than written to a file.
- Resolve additionally records, in order, the name of every backend
  query it issues in the queries field, so that the claims about which
  queries are (not) issued are directly statable.
-/

/-- NameInfo from the source: the resolved display record.
The spec calls this NameRecord and calls the type field kind. -/
structure NameInfo where
  type : String
  id : String
  name : String
  tenantId : String
  tenantName : String
deriving DecidableEq, Repr

/-- ClusterInfo from the source: the cluster-by-id row. -/
structure ClusterInfo where
  clusterID : String
  clusterName : String
  tenantID : String
  tenantName : String
  deployType : String
  version : String
  clusterLifecycle : String
  creationDuration : String
  tenantPlan : String
  provider : String
  region : String
  projectID : String
  orgID : String
  clusterType : String
  createdAt : Nat
  updatedAt : Nat
deriving DecidableEq, Repr

/-- TenantInfo from the source: the tenant-by-id row. -/
structure TenantInfo where
  tenantID : String
  tenantName : String
  kind : String
  createdAt : Nat
  updatedAt : Nat
deriving DecidableEq, Repr

/-- cacheEntry from the source: a cached record with its notFound flag
and creation timestamp. -/
structure cacheEntry where
  info : NameInfo
  notFound : Bool
  timestamp : Nat
deriving DecidableEq, Repr

/-- NameResolver state: the cache map plus the two TTL configuration
values (the mutex and the logger handle have no logical content). -/
structure NameResolver where
  cache : List (String × cacheEntry)
  cacheTTL : Nat
  notFoundTTL : Nat
deriving DecidableEq, Repr

/-- Nanoseconds in one hour, as in Go where time.Hour = 3600e9 ns. -/
def hourNS : Nat := 3600 * 1000000000

/-- GetNameResolver constructs the singleton resolver state: empty
cache, cacheTTL = 24h, notFoundTTL = 1h. -/
def GetNameResolver : NameResolver :=
  { cache := [], cacheTTL := 24 * hourNS, notFoundTTL := 1 * hourNS }

/-- The TiDB backend as an oracle over the five query shapes used by
the resolver. An error value is a transport-level failure; none (for
row queries) is sql.ErrNoRows. The premium query returns the already
filtered (name nonempty in SQL) list ordered by creation time
descending, i.e. newest first, as produced by the SQL statement. -/
structure TiDB where
  clusterRowById : String → Except Unit (Option ClusterInfo)
  tenantRowById : String → Except Unit (Option TenantInfo)
  clusterNameById : String → Except Unit (Option String)
  tenantNameById : String → Except Unit (Option String)
  premiumNamesByParentId : String → Except Unit (List String)

/-- getCluster from the source: row scan, with ErrNoRows mapped to a
nil record and nil error. -/
def getCluster (conn : TiDB) (clusterID : String) : Except Unit (Option ClusterInfo) :=
  conn.clusterRowById clusterID

/-- getTenant from the source. -/
def getTenant (conn : TiDB) (tenantID : String) : Except Unit (Option TenantInfo) :=
  conn.tenantRowById tenantID

/-- getClusterName from the source: ErrNoRows is mapped to the empty
string with nil error. -/
def getClusterName (conn : TiDB) (clusterID : String) : Except Unit String :=
  match conn.clusterNameById clusterID with
  | .error e => .error e
  | .ok none => .ok ""
  | .ok (some name) => .ok name

/-- getTenantName from the source: ErrNoRows is mapped to the empty
string with nil error. -/
def getTenantName (conn : TiDB) (tenantID : String) : Except Unit String :=
  match conn.tenantNameById tenantID with
  | .error e => .error e
  | .ok none => .ok ""
  | .ok (some name) => .ok name

/-- getPremiumClusterNamesByParentID from the source. -/
def getPremiumClusterNamesByParentID (conn : TiDB) (parentID : String) :
    Except Unit (List String) :=
  conn.premiumNamesByParentId parentID

/-- isNumeric from the source: every rune is a decimal digit and the
string is nonempty. -/
def isNumeric (s : String) : Bool :=
  s.data.all (fun c => '0' ≤ c && c ≤ '9') && decide (s.length > 0)

/-- isEntryValid from the source: the TTL is notFoundTTL for negative
entries and cacheTTL otherwise, and the entry is valid while its age
is strictly below that TTL. -/
def isEntryValid (nr : NameResolver) (now : Nat) (entry : cacheEntry) : Bool :=
  let ttl := if entry.notFound then nr.notFoundTTL else nr.cacheTTL
  decide (now - entry.timestamp < ttl)

/-- Go map read: first binding for the key, if any. -/
def cacheLookup : List (String × cacheEntry) → String → Option cacheEntry
  | [], _ => none
  | (k, e) :: rest, id => if k = id then some e else cacheLookup rest id

/-- Go map write: overwrite the binding in place, or append a new one. -/
def cacheInsert : List (String × cacheEntry) → String → cacheEntry → List (String × cacheEntry)
  | [], id, v => [(id, v)]
  | (k, e) :: rest, id, v =>
    if k = id then (id, v) :: rest else (k, e) :: cacheInsert rest id v

/-- Go map delete: remove every binding for the key. -/
def cacheErase : List (String × cacheEntry) → String → List (String × cacheEntry)
  | [], _ => []
  | (k, e) :: rest, id =>
    if k = id then cacheErase rest id else (k, e) :: cacheErase rest id

/-- Errors produced by Resolve. The spec names them InvalidInput
(emptyId), NotFoundCached, BackendUnavailable (tidbNotConnected) and
NotFound; the source produces them as formatted error strings. -/
inductive ResolveErr where
  | emptyId
  | notFoundCached (id : String)
  | tidbNotConnected
  | notFound (id : String)
deriving DecidableEq, Repr

/-- The record {id, name: id} returned on every failure path. -/
def idOnlyInfo (id : String) : NameInfo :=
  { type := "", id := id, name := id, tenantId := "", tenantName := "" }

/-- The Go zero value NameInfo with all fields empty. -/
def zeroNameInfo : NameInfo :=
  { type := "", id := "", name := "", tenantId := "", tenantName := "" }

/-- Full outcome of one Resolve call: returned record, returned error,
resulting resolver state, miss-log lines appended (id, reason), and
the names of the backend queries issued, in order. -/
structure ResolveResult where
  info : NameInfo
  err : Option ResolveErr
  state : NameResolver
  misses : List (String × String)
  queries : List String
deriving DecidableEq, Repr

/-- strings.TrimSpace: drop leading and trailing whitespace runes.
Written structurally over the character list so that it reduces in the
kernel. -/
def trimSpace (s : String) : String :=
  String.mk (((s.data.dropWhile Char.isWhitespace).reverse.dropWhile
    Char.isWhitespace).reverse)

/-- Special handling for nextgen-host clusters with empty names, from
the body of Resolve: when the deploy type is nextgen-host and the
stored name is empty or equals the id, query the premium names, trim
each, keep those that are nonempty and different from the id, and join
them with a comma-space; otherwise keep the stored name. Returns the
final name together with the premium queries issued. -/
def computeClusterName (conn : TiDB) (id : String) (clusterInfo : ClusterInfo) :
    String × List String :=
  let clusterName := clusterInfo.clusterName
  if clusterInfo.deployType = "nextgen-host" ∧ (clusterName = "" ∨ clusterName = id) then
    match getPremiumClusterNamesByParentID conn id with
    | .ok premiumNames =>
      if premiumNames.length > 0 then
        let meaningfulNames :=
          (premiumNames.map (fun name => trimSpace name)).filter (fun name => name != "" && name != id)
        (if meaningfulNames.length > 0 then String.intercalate ", " meaningfulNames
         else clusterName, ["getPremiumClusterNamesByParentID"])
      else (clusterName, ["getPremiumClusterNamesByParentID"])
    | .error _ => (clusterName, ["getPremiumClusterNamesByParentID"])
  else (clusterName, [])

/-- Definitive-miss tail of Resolve: store a negative entry, log the
miss with reason not_found_in_database (the spec calls this reason
not_found_in_backend), and fail with the not-found error. -/
def resolveMiss (nr : NameResolver) (now : Nat) (id : String) : ResolveResult :=
  let entry : cacheEntry := { info := idOnlyInfo id, notFound := true, timestamp := now }
  { info := idOnlyInfo id
    err := some (.notFound id)
    state := { nr with cache := cacheInsert nr.cache id entry }
    misses := [(id, "not_found_in_database")]
    queries := ["getCluster", "getTenant", "getTenantName", "getClusterName"] }

/-- Fourth fallback step of Resolve: simple cluster name. -/
def resolveStep4 (nr : NameResolver) (conn : TiDB) (now : Nat) (id : String) : ResolveResult :=
  match getClusterName conn id with
  | .ok clusterName =>
    if clusterName ≠ "" then
      let result : NameInfo :=
        { type := "cluster", id := id, name := clusterName, tenantId := "", tenantName := "" }
      let entry : cacheEntry := { info := result, notFound := false, timestamp := now }
      { info := result
        err := none
        state := { nr with cache := cacheInsert nr.cache id entry }
        misses := []
        queries := ["getCluster", "getTenant", "getTenantName", "getClusterName"] }
    else resolveMiss nr now id
  | .error _ => resolveMiss nr now id

/-- Third fallback step of Resolve: simple tenant name. -/
def resolveStep3 (nr : NameResolver) (conn : TiDB) (now : Nat) (id : String) : ResolveResult :=
  match getTenantName conn id with
  | .ok tenantName =>
    if tenantName ≠ "" then
      let result : NameInfo :=
        { type := "tenant", id := id, name := tenantName, tenantId := "", tenantName := "" }
      let entry : cacheEntry := { info := result, notFound := false, timestamp := now }
      { info := result
        err := none
        state := { nr with cache := cacheInsert nr.cache id entry }
        misses := []
        queries := ["getCluster", "getTenant", "getTenantName"] }
    else resolveStep4 nr conn now id
  | .error _ => resolveStep4 nr conn now id

/-- Second fallback step of Resolve: tenant full record. -/
def resolveStep2 (nr : NameResolver) (conn : TiDB) (now : Nat) (id : String) : ResolveResult :=
  match getTenant conn id with
  | .ok (some tenantInfo) =>
    let result : NameInfo :=
      { type := "tenant", id := id, name := tenantInfo.tenantName
        tenantId := "", tenantName := "" }
    let entry : cacheEntry := { info := result, notFound := false, timestamp := now }
    { info := result
      err := none
      state := { nr with cache := cacheInsert nr.cache id entry }
      misses := []
      queries := ["getCluster", "getTenant"] }
  | _ => resolveStep3 nr conn now id

/-- Backend portion of Resolve once the cache has not answered: the
four-step fallback chain, starting with the cluster full record. -/
def resolveBackend (nr : NameResolver) (conn : TiDB) (now : Nat) (id : String) : ResolveResult :=
  match getCluster conn id with
  | .ok (some clusterInfo) =>
    let named := computeClusterName conn id clusterInfo
    let result : NameInfo :=
      { type := "cluster", id := id, name := named.1
        tenantId := clusterInfo.tenantID, tenantName := clusterInfo.tenantName }
    let entry : cacheEntry := { info := result, notFound := false, timestamp := now }
    { info := result
      err := none
      state := { nr with cache := cacheInsert nr.cache id entry }
      misses := []
      queries := "getCluster" :: named.2 }
  | _ => resolveStep2 nr conn now id

/-- Resolve from the source: empty-id check, numeric check, cache
consultation, backend availability check, then the fallback chain. -/
def Resolve (nr : NameResolver) (tidb : Option TiDB) (now : Nat) (id : String) : ResolveResult :=
  if id = "" then
    { info := zeroNameInfo, err := some .emptyId, state := nr, misses := [], queries := [] }
  else if !(isNumeric id) then
    { info := idOnlyInfo id, err := none, state := nr, misses := [], queries := [] }
  else
    match cacheLookup nr.cache id with
    | some entry =>
      if isEntryValid nr now entry then
        if entry.notFound then
          { info := idOnlyInfo id, err := some (.notFoundCached id), state := nr
            misses := [], queries := [] }
        else
          { info := entry.info, err := none, state := nr, misses := [], queries := [] }
      else resolveNoCache nr tidb now id
    | none => resolveNoCache nr tidb now id
where
  /-- Continuation after a cache miss: TiDB availability check, then
  the fallback chain. -/
  resolveNoCache (nr : NameResolver) (tidb : Option TiDB) (now : Nat) (id : String) :
      ResolveResult :=
    match tidb with
    | none =>
      { info := idOnlyInfo id, err := some .tidbNotConnected, state := nr
        misses := [(id, "TiDB_not_connected")], queries := [] }
    | some conn => resolveBackend nr conn now id

/-- Cache statistics snapshot, from GetCacheStats. -/
structure CacheStats where
  total : Nat
  found : Nat
  notFound : Nat
  expired : Nat
  cacheTTL : Nat
  notFoundTTL : Nat
deriving DecidableEq, Repr

/-- The classification loop of GetCacheStats over the stored entries:
returns (found, notFound, expired) counts. -/
def statsLoop (nr : NameResolver) (now : Nat) :
    List (String × cacheEntry) → Nat × Nat × Nat
  | [] => (0, 0, 0)
  | (_, entry) :: rest =>
    let acc := statsLoop nr now rest
    if !(isEntryValid nr now entry) then (acc.1, acc.2.1, acc.2.2 + 1)
    else if entry.notFound then (acc.1, acc.2.1 + 1, acc.2.2)
    else (acc.1 + 1, acc.2.1, acc.2.2)

/-- GetCacheStats from the source: classify every stored entry as
expired (validity check fails), notFound, or found. -/
def GetCacheStats (nr : NameResolver) (now : Nat) : CacheStats :=
  let acc := statsLoop nr now nr.cache
  { total := nr.cache.length, found := acc.1, notFound := acc.2.1, expired := acc.2.2
    cacheTTL := nr.cacheTTL, notFoundTTL := nr.notFoundTTL }

/-- ClearCache from the source: discard every entry. -/
def ClearCache (nr : NameResolver) : NameResolver :=
  { nr with cache := [] }

/-- The removal loop of CleanExpiredCache: delete each entry whose
validity check fails, counting deletions. -/
def cleanLoop (nr : NameResolver) (now : Nat) :
    List (String × cacheEntry) → Nat × List (String × cacheEntry)
  | [] => (0, [])
  | (k, entry) :: rest =>
    let acc := cleanLoop nr now rest
    if !(isEntryValid nr now entry) then (acc.1 + 1, acc.2)
    else (acc.1, (k, entry) :: acc.2)

/-- CleanExpiredCache from the source: remove the entries whose
validity check fails at call time and return how many were removed. -/
def CleanExpiredCache (nr : NameResolver) (now : Nat) : Nat × NameResolver :=
  let acc := cleanLoop nr now nr.cache
  (acc.1, { nr with cache := acc.2 })

/-! Spec-side description of the fallback chain, written from the words
of the specification: each step either yields a result or yields
nothing, where a query error is treated as yielding nothing, and the
name-only steps additionally require a non-empty name. -/

/-- Step (a) of the chain yields a result exactly when the cluster row
query succeeds and finds a record (an empty stored name still counts). -/
def stepClusterById (conn : TiDB) (id : String) : Option ClusterInfo :=
  match getCluster conn id with
  | .ok (some record) => some record
  | _ => none

/-- Step (b) yields a result exactly when the tenant row query
succeeds and finds a record. -/
def stepTenantById (conn : TiDB) (id : String) : Option TenantInfo :=
  match getTenant conn id with
  | .ok (some record) => some record
  | _ => none

/-- Step (c) yields a result exactly when the tenant-name-only query
succeeds with a non-empty name. -/
def stepTenantNameOnly (conn : TiDB) (id : String) : Option String :=
  match getTenantName conn id with
  | .ok name => if name = "" then none else some name
  | .error _ => none

/-- Step (d) yields a result exactly when the cluster-name-only query
succeeds with a non-empty name. -/
def stepClusterNameOnly (conn : TiDB) (id : String) : Option String :=
  match getClusterName conn id with
  | .ok name => if name = "" then none else some name
  | .error _ => none

/-- The chain outcome per the spec: the first step that yields a
result, or a definitive miss when none does. -/
inductive ChainOutcome where
  | clusterById (record : ClusterInfo)
  | tenantById (record : TenantInfo)
  | tenantNameOnly (name : String)
  | clusterNameOnly (name : String)
  | noResult

/-- Spec-side chain evaluation in the strict order (a) cluster-by-id,
(b) tenant-by-id, (c) tenant-name-only, (d) cluster-name-only,
stopping at the first step that yields a result. -/
def chainSpecOutcome (conn : TiDB) (id : String) : ChainOutcome :=
  match stepClusterById conn id with
  | some record => .clusterById record
  | none =>
    match stepTenantById conn id with
    | some record => .tenantById record
    | none =>
      match stepTenantNameOnly conn id with
      | some name => .tenantNameOnly name
      | none =>
        match stepClusterNameOnly conn id with
        | some name => .clusterNameOnly name
        | none => .noResult

/-- Spec-side list of the chain steps that should be tried, in order:
every step up to and including the first one that yields a result, or
all four when none does. -/
def chainStepsTried (conn : TiDB) (id : String) : List String :=
  if (stepClusterById conn id).isSome then ["getCluster"]
  else if (stepTenantById conn id).isSome then ["getCluster", "getTenant"]
  else if (stepTenantNameOnly conn id).isSome then
    ["getCluster", "getTenant", "getTenantName"]
  else ["getCluster", "getTenant", "getTenantName", "getClusterName"]

/-- Spec-side premium-name recovery: trim whitespace from each of the
premium names, discard those that are empty or equal to the id, and
join the survivors with a comma-space; if no usable name survives,
keep the original name. -/
def premiumJoinSpec (premiumNames : List String) (id originalName : String) : String :=
  let survivors :=
    (premiumNames.map (fun name => trimSpace name)).filter (fun name => name != "" && name != id)
  if survivors.isEmpty then originalName else String.intercalate ", " survivors

/-- The combined cache condition of the source read path: a binding
exists for the id and it passes the validity check. -/
def hasValidEntry (nr : NameResolver) (now : Nat) (id : String) : Bool :=
  match cacheLookup nr.cache id with
  | some entry => isEntryValid nr now entry
  | none => false

/-- A numeric id that is not answered by the cache proceeds to the
backend continuation. -/
theorem resolve_of_noValid (nr : NameResolver) (tidb : Option TiDB) (now : Nat)
    (id : String) (hnum : isNumeric id = true) (hmiss : hasValidEntry nr now id = false) :
    Resolve nr tidb now id = Resolve.resolveNoCache nr tidb now id := by
  have hne : ¬(id = "") := by
    intro he
    subst he
    simp [isNumeric] at hnum
  unfold Resolve
  rw [if_neg hne, hnum]
  unfold hasValidEntry at hmiss
  cases hlook : cacheLookup nr.cache id with
  | none => simp [hlook]
  | some entry =>
    have hval : isEntryValid nr now entry = false := by
      rw [hlook] at hmiss
      exact hmiss
    simp [hlook, hval]

/-- The entry-present-and-valid condition matches the cache lookup. -/
theorem hasValidEntry_of_lookup (nr : NameResolver) (now : Nat) (id : String)
    (entry : cacheEntry) (hlook : cacheLookup nr.cache id = some entry) :
    hasValidEntry nr now id = isEntryValid nr now entry := by
  unfold hasValidEntry
  rw [hlook]

/-- An entry that has expired stays expired at any later instant. -/
theorem hasValidEntry_mono (nr : NameResolver) (now later : Nat) (id : String)
    (hle : now ≤ later) (hmiss : hasValidEntry nr now id = false) :
    hasValidEntry nr later id = false := by
  unfold hasValidEntry at hmiss ⊢
  cases hlook : cacheLookup nr.cache id with
  | none => rfl
  | some entry =>
    rw [hlook] at hmiss
    unfold isEntryValid at hmiss ⊢
    simp only [decide_eq_false_iff_not, decide_eq_true_eq] at hmiss ⊢
    omega

/-! Concrete fixtures reused by witness theorems below. -/

/-- A backend connection on which every query fails at transport
level. -/
def connDown : TiDB :=
  { clusterRowById := fun _ => .error ()
    tenantRowById := fun _ => .error ()
    clusterNameById := fun _ => .error ()
    tenantNameById := fun _ => .error ()
    premiumNamesByParentId := fun _ => .error () }

/-- A concrete positive cache entry for id 7. -/
def entryPos : cacheEntry :=
  { info := { type := "cluster", id := "7", name := "seven", tenantId := "t1"
              tenantName := "TenantOne" }
    notFound := false, timestamp := 0 }

/-- A concrete negative cache entry for id 8. -/
def entryNeg : cacheEntry :=
  { info := idOnlyInfo "8", notFound := true, timestamp := 0 }

/-- A concrete resolver state with one positive and one negative
entry, small TTLs. -/
def nrTwo : NameResolver :=
  { cache := [("7", entryPos), ("8", entryNeg)], cacheTTL := 10, notFoundTTL := 5 }

/-- C2: for every numeric identifier whose cache entry is valid at
call time, Resolve issues no backend query, appends no miss line and
does not modify the cache; a negative entry fails with the
cached-not-found error and returns the id-only record, a positive
entry returns the stored record with no error. -/
theorem resolve_valid_cache_hit (nr : NameResolver) (tidb : Option TiDB) (now : Nat)
    (id : String) (entry : cacheEntry)
    (hnum : isNumeric id = true)
    (hlook : cacheLookup nr.cache id = some entry)
    (hvalid : isEntryValid nr now entry = true) :
    (Resolve nr tidb now id).queries = [] ∧
    (Resolve nr tidb now id).misses = [] ∧
    (Resolve nr tidb now id).state = nr ∧
    (entry.notFound = true →
      (Resolve nr tidb now id).err = some (.notFoundCached id) ∧
      (Resolve nr tidb now id).info = idOnlyInfo id) ∧
    (entry.notFound = false →
      (Resolve nr tidb now id).err = none ∧
      (Resolve nr tidb now id).info = entry.info) := by
  have hne : ¬(id = "") := by
    intro he
    subst he
    simp [isNumeric] at hnum
  unfold Resolve
  rw [if_neg hne, hnum]
  cases hnf : entry.notFound with
  | true => simp [hlook, hvalid, hnf]
  | false => simp [hlook, hvalid, hnf]

/-- Witness for C2 at a concrete positive and negative entry. -/
theorem resolve_valid_cache_hit_witness :
    (isNumeric "7" = true ∧ cacheLookup nrTwo.cache "7" = some entryPos ∧
      isEntryValid nrTwo 3 entryPos = true ∧
      cacheLookup nrTwo.cache "8" = some entryNeg ∧
      isEntryValid nrTwo 3 entryNeg = true) ∧
    (Resolve nrTwo none 3 "7").queries = [] ∧
    (Resolve nrTwo none 3 "7").err = none ∧
    (Resolve nrTwo none 3 "7").info = entryPos.info ∧
    (Resolve nrTwo none 3 "8").err = some (.notFoundCached "8") ∧
    (Resolve nrTwo none 3 "8").info = idOnlyInfo "8" :=
  ⟨⟨by decide, by decide, by decide, by decide, by decide⟩,
    (resolve_valid_cache_hit nrTwo none 3 "7" entryPos (by decide) (by decide) (by decide)).1,
    ((resolve_valid_cache_hit nrTwo none 3 "7" entryPos (by decide) (by decide)
      (by decide)).2.2.2.2 (by decide)).1,
    ((resolve_valid_cache_hit nrTwo none 3 "7" entryPos (by decide) (by decide)
      (by decide)).2.2.2.2 (by decide)).2,
    ((resolve_valid_cache_hit nrTwo none 3 "8" entryNeg (by decide) (by decide)
      (by decide)).2.2.2.1 (by decide)).1,
    ((resolve_valid_cache_hit nrTwo none 3 "8" entryNeg (by decide) (by decide)
      (by decide)).2.2.2.1 (by decide)).2⟩

/-- C9: resolving the empty identifier fails with the invalid-input
error and has no side effects, and resolving any nonempty non-numeric
identifier returns the id-only record with no error, writes no cache
entry, appends no miss-audit line and issues no backend query, on
every call. -/
theorem resolve_trivial_inputs (nr : NameResolver) (tidb : Option TiDB) (now : Nat)
    (id : String) (hne : id ≠ "") (hnn : isNumeric id = false) :
    Resolve nr tidb now "" =
      { info := zeroNameInfo, err := some .emptyId, state := nr
        misses := [], queries := [] } ∧
    Resolve nr tidb now id =
      { info := idOnlyInfo id, err := none, state := nr, misses := [], queries := [] } := by
  constructor
  · unfold Resolve
    simp
  · unfold Resolve
    rw [if_neg hne, hnn]
    simp

/-- Witness for C9 at the concrete non-numeric identifier abc. -/
theorem resolve_trivial_inputs_witness :
    ("abc" ≠ "" ∧ isNumeric "abc" = false) ∧
    Resolve GetNameResolver none 0 "" =
      { info := zeroNameInfo, err := some .emptyId, state := GetNameResolver
        misses := [], queries := [] } ∧
    Resolve GetNameResolver none 0 "abc" =
      { info := idOnlyInfo "abc", err := none, state := GetNameResolver
        misses := [], queries := [] } :=
  ⟨⟨by decide, by decide⟩,
    (resolve_trivial_inputs GetNameResolver none 0 "abc" (by decide) (by decide)).1,
    (resolve_trivial_inputs GetNameResolver none 0 "abc" (by decide) (by decide)).2⟩

/-- C6: for a numeric identifier with no valid cache entry and the
backend unavailable, every call at the same or any later instant logs
a miss with reason TiDB_not_connected (the reason the spec names
backend_unavailable), fails with the backend-unavailable error,
returns the id-only record and leaves the resolver state unchanged,
so the resolver never transitions to a cached state. -/
theorem resolve_backend_unavailable (nr : NameResolver) (now : Nat) (id : String)
    (hnum : isNumeric id = true) (hmiss : hasValidEntry nr now id = false) :
    ∀ later : Nat, now ≤ later →
      Resolve nr none later id =
        { info := idOnlyInfo id, err := some .tidbNotConnected, state := nr
          misses := [(id, "TiDB_not_connected")], queries := [] } := by
  intro later hle
  rw [resolve_of_noValid nr none later id hnum
    (hasValidEntry_mono nr now later id hle hmiss)]
  rfl

/-- Witness for C6 at the concrete identifier 42 on the fresh
resolver, with a second call at a later instant. -/
theorem resolve_backend_unavailable_witness :
    (isNumeric "42" = true ∧ hasValidEntry GetNameResolver 0 "42" = false ∧
      (0 : Nat) ≤ 5) ∧
    Resolve GetNameResolver none 5 "42" =
      { info := idOnlyInfo "42", err := some .tidbNotConnected, state := GetNameResolver
        misses := [("42", "TiDB_not_connected")], queries := [] } :=
  ⟨⟨by decide, by decide, by decide⟩,
    resolve_backend_unavailable GetNameResolver 0 "42" (by decide) (by decide) 5 (by decide)⟩

/-! Step-elimination lemmas connecting the source chain to the
spec-side step descriptions. -/

/-- Step (a) yields a record exactly when the query returned one. -/
theorem stepClusterById_eq_some (conn : TiDB) (id : String) (record : ClusterInfo)
    (h : stepClusterById conn id = some record) :
    getCluster conn id = .ok (some record) := by
  unfold stepClusterById at h
  cases hc : getCluster conn id with
  | ok o =>
    cases o with
    | some r =>
      rw [hc] at h
      simp at h
      rw [h]
    | none =>
      rw [hc] at h
      simp at h
  | error e =>
    rw [hc] at h
    simp at h

/-- When step (a) yields nothing the chain proceeds to step (b). -/
theorem resolveBackend_step1_none (nr : NameResolver) (conn : TiDB) (now : Nat)
    (id : String) (h : stepClusterById conn id = none) :
    resolveBackend nr conn now id = resolveStep2 nr conn now id := by
  unfold stepClusterById at h
  unfold resolveBackend
  cases hc : getCluster conn id with
  | ok o =>
    cases o with
    | some r => rw [hc] at h; simp at h
    | none => rfl
  | error e => rfl

/-- Step (b) yields a record exactly when the query returned one. -/
theorem stepTenantById_eq_some (conn : TiDB) (id : String) (record : TenantInfo)
    (h : stepTenantById conn id = some record) :
    getTenant conn id = .ok (some record) := by
  unfold stepTenantById at h
  cases hc : getTenant conn id with
  | ok o =>
    cases o with
    | some r =>
      rw [hc] at h
      simp at h
      rw [h]
    | none =>
      rw [hc] at h
      simp at h
  | error e =>
    rw [hc] at h
    simp at h

/-- When step (b) yields nothing the chain proceeds to step (c). -/
theorem resolveStep2_none (nr : NameResolver) (conn : TiDB) (now : Nat)
    (id : String) (h : stepTenantById conn id = none) :
    resolveStep2 nr conn now id = resolveStep3 nr conn now id := by
  unfold stepTenantById at h
  unfold resolveStep2
  cases hc : getTenant conn id with
  | ok o =>
    cases o with
    | some r => rw [hc] at h; simp at h
    | none => rfl
  | error e => rfl

/-- Step (c) yields a name exactly when the query returned a nonempty
one. -/
theorem stepTenantNameOnly_eq_some (conn : TiDB) (id name : String)
    (h : stepTenantNameOnly conn id = some name) :
    getTenantName conn id = .ok name ∧ name ≠ "" := by
  unfold stepTenantNameOnly at h
  cases hc : getTenantName conn id with
  | ok n =>
    rw [hc] at h
    by_cases hn : n = ""
    · simp [hn] at h
    · simp [hn] at h
      subst h
      exact ⟨rfl, hn⟩
  | error e =>
    rw [hc] at h
    simp at h

/-- When step (c) yields nothing the chain proceeds to step (d). -/
theorem resolveStep3_none (nr : NameResolver) (conn : TiDB) (now : Nat)
    (id : String) (h : stepTenantNameOnly conn id = none) :
    resolveStep3 nr conn now id = resolveStep4 nr conn now id := by
  unfold stepTenantNameOnly at h
  unfold resolveStep3
  cases hc : getTenantName conn id with
  | ok n =>
    rw [hc] at h
    by_cases hn : n = ""
    · simp [hc, hn]
    · simp [hn] at h
  | error e => rfl

/-- Step (d) yields a name exactly when the query returned a nonempty
one. -/
theorem stepClusterNameOnly_eq_some (conn : TiDB) (id name : String)
    (h : stepClusterNameOnly conn id = some name) :
    getClusterName conn id = .ok name ∧ name ≠ "" := by
  unfold stepClusterNameOnly at h
  cases hc : getClusterName conn id with
  | ok n =>
    rw [hc] at h
    by_cases hn : n = ""
    · simp [hn] at h
    · simp [hn] at h
      subst h
      exact ⟨rfl, hn⟩
  | error e =>
    rw [hc] at h
    simp at h

/-- When step (d) also yields nothing the call is a definitive miss. -/
theorem resolveStep4_none (nr : NameResolver) (conn : TiDB) (now : Nat)
    (id : String) (h : stepClusterNameOnly conn id = none) :
    resolveStep4 nr conn now id = resolveMiss nr now id := by
  unfold stepClusterNameOnly at h
  unfold resolveStep4
  cases hc : getClusterName conn id with
  | ok n =>
    rw [hc] at h
    by_cases hn : n = ""
    · simp [hc, hn]
    · simp [hn] at h
  | error e => rfl

/-- The premium sub-query list of the nextgen special handling is
either empty or the single premium query name. -/
theorem computeClusterName_queries (conn : TiDB) (id : String) (ci : ClusterInfo) :
    (computeClusterName conn id ci).2 = [] ∨
    (computeClusterName conn id ci).2 = ["getPremiumClusterNamesByParentID"] := by
  unfold computeClusterName
  by_cases hcond : ci.deployType = "nextgen-host" ∧ (ci.clusterName = "" ∨ ci.clusterName = id)
  · rw [if_pos hcond]
    cases hp : getPremiumClusterNamesByParentID conn id with
    | ok names =>
      by_cases hl : names.length > 0
      · by_cases hm : ((names.map (fun name => trimSpace name)).filter
          (fun name => name != "" && name != id)).length > 0 <;>
          simp [hp, hl, hm]
      · simp [hp, hl]
    | error e => simp [hp]
  · rw [if_neg hcond]
    left
    rfl

/-- Outside the nextgen special case the stored cluster name is kept
and no premium query is issued. -/
theorem computeClusterName_plain (conn : TiDB) (id : String) (ci : ClusterInfo)
    (h : ¬(ci.deployType = "nextgen-host" ∧ (ci.clusterName = "" ∨ ci.clusterName = id))) :
    computeClusterName conn id ci = (ci.clusterName, []) := by
  unfold computeClusterName
  rw [if_neg h]

/-- C1: for every numeric identifier not answered by the cache and
with the backend available, Resolve executes the fallback chain in
the strict order cluster-by-id, tenant-by-id, tenant-name-only,
cluster-name-only, stopping at the first step that yields a result
(the queries it issues, premium sub-query aside, are exactly the
steps up to and including the first successful one); a step that
returns a query error yields no result and the chain proceeds; and a
cluster record found at step one is a result even when its stored
name is empty and its deploy classification is not nextgen-host. -/
theorem resolve_fallback_chain (nr : NameResolver) (conn : TiDB) (now : Nat) (id : String)
    (hnum : isNumeric id = true) (hmiss : hasValidEntry nr now id = false) :
    (Resolve nr (some conn) now id).queries.filter
        (fun q => q != "getPremiumClusterNamesByParentID") = chainStepsTried conn id ∧
    (match chainSpecOutcome conn id with
     | .clusterById record =>
        (Resolve nr (some conn) now id).err = none ∧
        (Resolve nr (some conn) now id).info.type = "cluster" ∧
        (Resolve nr (some conn) now id).info.id = id ∧
        (Resolve nr (some conn) now id).info.tenantId = record.tenantID ∧
        (Resolve nr (some conn) now id).info.tenantName = record.tenantName ∧
        (¬(record.deployType = "nextgen-host") →
          (Resolve nr (some conn) now id).info.name = record.clusterName ∧
          (Resolve nr (some conn) now id).queries = ["getCluster"])
     | .tenantById record =>
        (Resolve nr (some conn) now id).err = none ∧
        (Resolve nr (some conn) now id).info =
          { type := "tenant", id := id, name := record.tenantName
            tenantId := "", tenantName := "" }
     | .tenantNameOnly name =>
        (Resolve nr (some conn) now id).err = none ∧
        (Resolve nr (some conn) now id).info =
          { type := "tenant", id := id, name := name, tenantId := "", tenantName := "" }
     | .clusterNameOnly name =>
        (Resolve nr (some conn) now id).err = none ∧
        (Resolve nr (some conn) now id).info =
          { type := "cluster", id := id, name := name, tenantId := "", tenantName := "" }
     | .noResult =>
        (Resolve nr (some conn) now id).err = some (.notFound id) ∧
        (Resolve nr (some conn) now id).info = idOnlyInfo id) := by
  rw [resolve_of_noValid nr (some conn) now id hnum hmiss]
  have hnc : Resolve.resolveNoCache nr (some conn) now id = resolveBackend nr conn now id := rfl
  rw [hnc]
  unfold chainSpecOutcome chainStepsTried
  cases h1 : stepClusterById conn id with
  | some record =>
    have hc := stepClusterById_eq_some conn id record h1
    unfold resolveBackend
    rw [hc]
    simp only [h1, Option.isSome_some, if_true]
    constructor
    · rcases computeClusterName_queries conn id record with hq | hq <;> simp [hq]
    · refine ⟨by simp, by simp, by simp, by simp, by simp, ?_⟩
      intro hdep
      have hplain : computeClusterName conn id record = (record.clusterName, []) := by
        apply computeClusterName_plain
        intro hand
        exact hdep hand.1
      simp [hplain]
  | none =>
    rw [resolveBackend_step1_none nr conn now id h1]
    simp only [h1, Option.isSome_none, Bool.false_eq_true, if_false]
    cases h2 : stepTenantById conn id with
    | some record =>
      have hc := stepTenantById_eq_some conn id record h2
      unfold resolveStep2
      rw [hc]
      simp only [h2, Option.isSome_some, if_true]
      refine ⟨by decide, by simp, by simp⟩
    | none =>
      rw [resolveStep2_none nr conn now id h2]
      simp only [h2, Option.isSome_none, Bool.false_eq_true, if_false]
      cases h3 : stepTenantNameOnly conn id with
      | some name =>
        obtain ⟨hc, hn⟩ := stepTenantNameOnly_eq_some conn id name h3
        unfold resolveStep3
        rw [hc]
        simp only [h3, Option.isSome_some, if_true, hn, ne_eq, not_false_eq_true, if_pos]
        refine ⟨by decide, by simp, by simp⟩
      | none =>
        rw [resolveStep3_none nr conn now id h3]
        simp only [h3, Option.isSome_none, Bool.false_eq_true, if_false]
        cases h4 : stepClusterNameOnly conn id with
        | some name =>
          obtain ⟨hc, hn⟩ := stepClusterNameOnly_eq_some conn id name h4
          unfold resolveStep4
          rw [hc]
          simp only [h4, Option.isSome_some, if_true, hn, ne_eq, not_false_eq_true, if_pos]
          refine ⟨by decide, by simp, by simp⟩
        | none =>
          rw [resolveStep4_none nr conn now id h4]
          simp only [h4, Option.isSome_none, Bool.false_eq_true, if_false]
          refine ⟨by simp [resolveMiss], by simp [resolveMiss], by simp [resolveMiss]⟩

/-- A backend on which the cluster row query fails at transport level,
the tenant row and tenant name queries find no row, and only the bare
cluster name query answers. -/
def connC1 : TiDB :=
  { clusterRowById := fun _ => .error ()
    tenantRowById := fun _ => .ok none
    clusterNameById := fun _ => .ok (some "legacy-name")
    tenantNameById := fun _ => .ok none
    premiumNamesByParentId := fun _ => .error () }

/-- Witness for C1: with the cluster step erroring and the tenant
steps finding nothing, the chain tries all four steps in order and
answers from the cluster-name-only step. -/
theorem resolve_fallback_chain_witness :
    (isNumeric "3" = true ∧ hasValidEntry GetNameResolver 0 "3" = false) ∧
    (Resolve GetNameResolver (some connC1) 0 "3").queries.filter
        (fun q => q != "getPremiumClusterNamesByParentID") = chainStepsTried connC1 "3" ∧
    (Resolve GetNameResolver (some connC1) 0 "3").err = none ∧
    (Resolve GetNameResolver (some connC1) 0 "3").info =
      { type := "cluster", id := "3", name := "legacy-name"
        tenantId := "", tenantName := "" } :=
  ⟨⟨by decide, by decide⟩,
    (resolve_fallback_chain GetNameResolver connC1 0 "3" (by decide) (by decide)).1,
    ((resolve_fallback_chain GetNameResolver connC1 0 "3" (by decide) (by decide)).2).1,
    ((resolve_fallback_chain GetNameResolver connC1 0 "3" (by decide) (by decide)).2).2⟩

/-- C3: when all four fallback steps yield no non-empty usable result,
Resolve stores a negative cache entry holding the id-only record,
logs the miss with reason not_found_in_database (the reason the spec
names not_found_in_backend), fails with the not-found error and
returns the id-only record. -/
theorem resolve_definitive_miss (nr : NameResolver) (conn : TiDB) (now : Nat) (id : String)
    (hnum : isNumeric id = true) (hmiss : hasValidEntry nr now id = false)
    (h1 : stepClusterById conn id = none)
    (h2 : stepTenantById conn id = none)
    (h3 : stepTenantNameOnly conn id = none)
    (h4 : stepClusterNameOnly conn id = none) :
    Resolve nr (some conn) now id =
      { info := idOnlyInfo id
        err := some (.notFound id)
        state := { nr with cache := cacheInsert nr.cache id ⟨idOnlyInfo id, true, now⟩ }
        misses := [(id, "not_found_in_database")]
        queries := ["getCluster", "getTenant", "getTenantName", "getClusterName"] } := by
  rw [resolve_of_noValid nr (some conn) now id hnum hmiss]
  have hnc : Resolve.resolveNoCache nr (some conn) now id = resolveBackend nr conn now id := rfl
  rw [hnc, resolveBackend_step1_none nr conn now id h1, resolveStep2_none nr conn now id h2,
    resolveStep3_none nr conn now id h3, resolveStep4_none nr conn now id h4]
  rfl

/-- Witness for C3: the all-failing backend turns id 12 into a
definitive miss with a negative cache entry. -/
theorem resolve_definitive_miss_witness :
    (isNumeric "12" = true ∧ hasValidEntry GetNameResolver 0 "12" = false ∧
      stepClusterById connDown "12" = none ∧ stepTenantById connDown "12" = none ∧
      stepTenantNameOnly connDown "12" = none ∧ stepClusterNameOnly connDown "12" = none) ∧
    Resolve GetNameResolver (some connDown) 0 "12" =
      { info := idOnlyInfo "12"
        err := some (.notFound "12")
        state := { GetNameResolver with cache := cacheInsert GetNameResolver.cache "12" ⟨idOnlyInfo "12", true, 0⟩ }
        misses := [("12", "not_found_in_database")]
        queries := ["getCluster", "getTenant", "getTenantName", "getClusterName"] } :=
  ⟨⟨by decide, by decide, by decide, by decide, by decide, by decide⟩,
    resolve_definitive_miss GetNameResolver connDown 0 "12" (by decide) (by decide)
      (by decide) (by decide) (by decide) (by decide)⟩

/-- Under the nextgen special condition the premium query is always
issued. -/
theorem computeClusterName_nextgen_queries (conn : TiDB) (id : String) (record : ClusterInfo)
    (hcond : record.deployType = "nextgen-host" ∧
      (record.clusterName = "" ∨ record.clusterName = id)) :
    (computeClusterName conn id record).2 = ["getPremiumClusterNamesByParentID"] := by
  unfold computeClusterName
  rw [if_pos hcond]
  cases hp : getPremiumClusterNamesByParentID conn id with
  | ok names =>
    by_cases hl : names.length > 0
    · by_cases hm : ((names.map (fun name => trimSpace name)).filter
        (fun name => name != "" && name != id)).length > 0 <;> simp [hl, hm]
    · simp [hl]
  | error e => simp

/-- Under the nextgen special condition the final name is the joined
trimmed premium survivors when any exist, else the stored name. -/
theorem computeClusterName_nextgen_name (conn : TiDB) (id : String) (record : ClusterInfo)
    (hcond : record.deployType = "nextgen-host" ∧
      (record.clusterName = "" ∨ record.clusterName = id)) :
    (computeClusterName conn id record).1 =
      (match getPremiumClusterNamesByParentID conn id with
       | .ok premiumNames =>
          if premiumNames.isEmpty then record.clusterName
          else premiumJoinSpec premiumNames id record.clusterName
       | .error _ => record.clusterName) := by
  unfold computeClusterName premiumJoinSpec
  rw [if_pos hcond]
  cases hp : getPremiumClusterNamesByParentID conn id with
  | error e => simp
  | ok names =>
    cases names with
    | nil => simp
    | cons first rest =>
      simp only [List.length_cons, List.isEmpty_cons, Bool.false_eq_true, if_false]
      cases hm : ((first :: rest).map (fun name => trimSpace name)).filter
          (fun name => name != "" && name != id) with
      | nil => simp [hm]
      | cons a l => simp [hm]

/-- C5: when the cluster step finds a nextgen-host record whose stored
name is empty or equals the id, Resolve issues the premium query and
the final name is obtained by trimming each returned premium name,
discarding the ones that are empty or equal to the id, and joining
the survivors newest first with a comma-space, keeping the original
stored name when nothing usable survives. -/
theorem resolve_nextgen_premium (nr : NameResolver) (conn : TiDB) (now : Nat) (id : String)
    (record : ClusterInfo)
    (hnum : isNumeric id = true) (hmiss : hasValidEntry nr now id = false)
    (hclu : getCluster conn id = .ok (some record))
    (hdep : record.deployType = "nextgen-host")
    (hname : record.clusterName = "" ∨ record.clusterName = id) :
    (Resolve nr (some conn) now id).err = none ∧
    (Resolve nr (some conn) now id).info.type = "cluster" ∧
    (Resolve nr (some conn) now id).queries =
      ["getCluster", "getPremiumClusterNamesByParentID"] ∧
    (Resolve nr (some conn) now id).info.name =
      (match getPremiumClusterNamesByParentID conn id with
       | .ok premiumNames =>
          if premiumNames.isEmpty then record.clusterName
          else premiumJoinSpec premiumNames id record.clusterName
       | .error _ => record.clusterName) := by
  rw [resolve_of_noValid nr (some conn) now id hnum hmiss]
  have hnc : Resolve.resolveNoCache nr (some conn) now id = resolveBackend nr conn now id := rfl
  rw [hnc]
  unfold resolveBackend
  rw [hclu]
  have hcond : record.deployType = "nextgen-host" ∧
      (record.clusterName = "" ∨ record.clusterName = id) := ⟨hdep, hname⟩
  refine ⟨rfl, rfl, ?_, ?_⟩
  · show "getCluster" :: (computeClusterName conn id record).2 = _
    rw [computeClusterName_nextgen_queries conn id record hcond]
  · show (computeClusterName conn id record).1 = _
    exact computeClusterName_nextgen_name conn id record hcond

/-- A nextgen-host cluster record with an empty stored name. -/
def record77 : ClusterInfo :=
  { clusterID := "77", clusterName := "", tenantID := "t7", tenantName := "Tenant7"
    deployType := "nextgen-host", version := "", clusterLifecycle := ""
    creationDuration := "", tenantPlan := "", provider := "", region := ""
    projectID := "", orgID := "", clusterType := "", createdAt := 0, updatedAt := 0 }

/-- A backend returning the nextgen record and premium rows named
Beta then Alpha, newest first. -/
def connPrem : TiDB :=
  { clusterRowById := fun _ => .ok (some record77)
    tenantRowById := fun _ => .error ()
    clusterNameById := fun _ => .error ()
    tenantNameById := fun _ => .error ()
    premiumNamesByParentId := fun _ => .ok ["Beta", "Alpha"] }

/-- Witness for C5: premium rows Beta and Alpha newest first produce
the joined name Beta, Alpha. -/
theorem resolve_nextgen_premium_witness :
    (isNumeric "77" = true ∧ hasValidEntry GetNameResolver 0 "77" = false ∧
      getCluster connPrem "77" = .ok (some record77) ∧
      record77.deployType = "nextgen-host" ∧
      (record77.clusterName = "" ∨ record77.clusterName = "77")) ∧
    (Resolve GetNameResolver (some connPrem) 0 "77").info.name = "Beta, Alpha" :=
  ⟨⟨by decide, by decide, rfl, by decide, by decide⟩,
    ((resolve_nextgen_premium GetNameResolver connPrem 0 "77" record77 (by decide) (by decide)
      rfl (by decide) (by decide)).2.2.2).trans (by decide)⟩

/-- Erasing a key makes its lookup fail. -/
theorem cacheLookup_erase (c : List (String × cacheEntry)) (id : String) :
    cacheLookup (cacheErase c id) id = none := by
  induction c with
  | nil => rfl
  | cons p rest ih =>
    obtain ⟨k, e⟩ := p
    by_cases hk : k = id <;> simp [cacheErase, cacheLookup, hk, ih]

/-- The miss tail reads nothing from the cache: all outputs except the
new state agree across resolver states. -/
theorem resolveMiss_ignores_cache (nr nr2 : NameResolver) (now : Nat) (id : String) :
    (resolveMiss nr now id).info = (resolveMiss nr2 now id).info ∧
    (resolveMiss nr now id).err = (resolveMiss nr2 now id).err ∧
    (resolveMiss nr now id).misses = (resolveMiss nr2 now id).misses ∧
    (resolveMiss nr now id).queries = (resolveMiss nr2 now id).queries :=
  ⟨rfl, rfl, rfl, rfl⟩

/-- Step (d) reads nothing from the cache. -/
theorem resolveStep4_ignores_cache (nr nr2 : NameResolver) (conn : TiDB) (now : Nat)
    (id : String) :
    (resolveStep4 nr conn now id).info = (resolveStep4 nr2 conn now id).info ∧
    (resolveStep4 nr conn now id).err = (resolveStep4 nr2 conn now id).err ∧
    (resolveStep4 nr conn now id).misses = (resolveStep4 nr2 conn now id).misses ∧
    (resolveStep4 nr conn now id).queries = (resolveStep4 nr2 conn now id).queries := by
  unfold resolveStep4
  cases getClusterName conn id with
  | ok n =>
    by_cases hn : n ≠ ""
    · simp only [if_pos hn]
      simp
    · simp only [if_neg hn]
      exact resolveMiss_ignores_cache nr nr2 now id
  | error e => exact resolveMiss_ignores_cache nr nr2 now id

/-- Step (c) reads nothing from the cache. -/
theorem resolveStep3_ignores_cache (nr nr2 : NameResolver) (conn : TiDB) (now : Nat)
    (id : String) :
    (resolveStep3 nr conn now id).info = (resolveStep3 nr2 conn now id).info ∧
    (resolveStep3 nr conn now id).err = (resolveStep3 nr2 conn now id).err ∧
    (resolveStep3 nr conn now id).misses = (resolveStep3 nr2 conn now id).misses ∧
    (resolveStep3 nr conn now id).queries = (resolveStep3 nr2 conn now id).queries := by
  unfold resolveStep3
  cases getTenantName conn id with
  | ok n =>
    by_cases hn : n ≠ ""
    · simp only [if_pos hn]
      simp
    · simp only [if_neg hn]
      exact resolveStep4_ignores_cache nr nr2 conn now id
  | error e => exact resolveStep4_ignores_cache nr nr2 conn now id

/-- Step (b) reads nothing from the cache. -/
theorem resolveStep2_ignores_cache (nr nr2 : NameResolver) (conn : TiDB) (now : Nat)
    (id : String) :
    (resolveStep2 nr conn now id).info = (resolveStep2 nr2 conn now id).info ∧
    (resolveStep2 nr conn now id).err = (resolveStep2 nr2 conn now id).err ∧
    (resolveStep2 nr conn now id).misses = (resolveStep2 nr2 conn now id).misses ∧
    (resolveStep2 nr conn now id).queries = (resolveStep2 nr2 conn now id).queries := by
  unfold resolveStep2
  cases getTenant conn id with
  | ok o =>
    cases o with
    | some r => exact ⟨rfl, rfl, rfl, rfl⟩
    | none => exact resolveStep3_ignores_cache nr nr2 conn now id
  | error e => exact resolveStep3_ignores_cache nr nr2 conn now id

/-- The whole backend chain reads nothing from the cache. -/
theorem resolveBackend_ignores_cache (nr nr2 : NameResolver) (conn : TiDB) (now : Nat)
    (id : String) :
    (resolveBackend nr conn now id).info = (resolveBackend nr2 conn now id).info ∧
    (resolveBackend nr conn now id).err = (resolveBackend nr2 conn now id).err ∧
    (resolveBackend nr conn now id).misses = (resolveBackend nr2 conn now id).misses ∧
    (resolveBackend nr conn now id).queries = (resolveBackend nr2 conn now id).queries := by
  unfold resolveBackend
  cases getCluster conn id with
  | ok o =>
    cases o with
    | some r => exact ⟨rfl, rfl, rfl, rfl⟩
    | none => exact resolveStep2_ignores_cache nr nr2 conn now id
  | error e => exact resolveStep2_ignores_cache nr nr2 conn now id

/-- C4: the effective TTL of an entry depends only on its notFound
flag (notFoundTTL for negative entries, cacheTTL for positive ones),
an entry is valid exactly while its age is below that TTL, the
defaults are 24h and 1h, an invalid entry is treated as absent by the
read path (Resolve behaves, in all its outputs, as if the entry were
not stored), and the read path does not remove it: when the backend
is unavailable the expired entry is still stored afterwards. -/
theorem entry_ttl_policy (nr : NameResolver) (tidb : Option TiDB) (now : Nat)
    (id : String) (e entry : cacheEntry) (t : Nat)
    (hnum : isNumeric id = true)
    (hlook : cacheLookup nr.cache id = some e)
    (hinv : isEntryValid nr now e = false) :
    (isEntryValid nr t entry = true ↔
      t - entry.timestamp < (if entry.notFound then nr.notFoundTTL else nr.cacheTTL)) ∧
    GetNameResolver.cacheTTL = 24 * hourNS ∧
    GetNameResolver.notFoundTTL = 1 * hourNS ∧
    ((Resolve nr tidb now id).info =
        (Resolve { nr with cache := cacheErase nr.cache id } tidb now id).info ∧
      (Resolve nr tidb now id).err =
        (Resolve { nr with cache := cacheErase nr.cache id } tidb now id).err ∧
      (Resolve nr tidb now id).misses =
        (Resolve { nr with cache := cacheErase nr.cache id } tidb now id).misses ∧
      (Resolve nr tidb now id).queries =
        (Resolve { nr with cache := cacheErase nr.cache id } tidb now id).queries) ∧
    ((Resolve nr none now id).state = nr ∧
      cacheLookup (Resolve nr none now id).state.cache id = some e) := by
  have hmiss : hasValidEntry nr now id = false := by
    unfold hasValidEntry
    rw [hlook]
    exact hinv
  have hmiss2 : hasValidEntry { nr with cache := cacheErase nr.cache id } now id = false := by
    unfold hasValidEntry
    simp [cacheLookup_erase]
  refine ⟨?_, rfl, rfl, ?_, ?_⟩
  · simp [isEntryValid]
  · rw [resolve_of_noValid nr tidb now id hnum hmiss,
      resolve_of_noValid { nr with cache := cacheErase nr.cache id } tidb now id hnum hmiss2]
    cases tidb with
    | none => exact ⟨rfl, rfl, rfl, rfl⟩
    | some conn =>
      exact resolveBackend_ignores_cache nr { nr with cache := cacheErase nr.cache id }
        conn now id
  · rw [resolve_of_noValid nr none now id hnum hmiss]
    exact ⟨rfl, hlook⟩

/-- An expired negative cache entry for id 9. -/
def entryOld : cacheEntry := { info := idOnlyInfo "9", notFound := true, timestamp := 0 }

/-- A resolver state whose only entry for id 9 has expired at instant
7 (negative TTL 5). -/
def nrOld : NameResolver := { cache := [("9", entryOld)], cacheTTL := 10, notFoundTTL := 5 }

/-- Witness for C4 at a concrete expired entry with the backend
unavailable. -/
theorem entry_ttl_policy_witness :
    (isNumeric "9" = true ∧ cacheLookup nrOld.cache "9" = some entryOld ∧
      isEntryValid nrOld 7 entryOld = false) ∧
    GetNameResolver.cacheTTL = 24 * hourNS ∧
    (Resolve nrOld none 7 "9").err =
      (Resolve { nrOld with cache := cacheErase nrOld.cache "9" } none 7 "9").err ∧
    (Resolve nrOld none 7 "9").state = nrOld ∧
    cacheLookup (Resolve nrOld none 7 "9").state.cache "9" = some entryOld :=
  ⟨⟨by decide, by decide, by decide⟩,
    (entry_ttl_policy nrOld none 7 "9" entryOld entryOld 7 (by decide) (by decide)
      (by decide)).2.1,
    (entry_ttl_policy nrOld none 7 "9" entryOld entryOld 7 (by decide) (by decide)
      (by decide)).2.2.2.1.2.1,
    (entry_ttl_policy nrOld none 7 "9" entryOld entryOld 7 (by decide) (by decide)
      (by decide)).2.2.2.2.1,
    (entry_ttl_policy nrOld none 7 "9" entryOld entryOld 7 (by decide) (by decide)
      (by decide)).2.2.2.2.2⟩

/-- The clean loop keeps exactly the valid entries, in order, and
counts the invalid ones. -/
theorem cleanLoop_eq (nr : NameResolver) (now : Nat) (l : List (String × cacheEntry)) :
    cleanLoop nr now l =
      ((l.filter (fun p => !(isEntryValid nr now p.2))).length,
        l.filter (fun p => isEntryValid nr now p.2)) := by
  induction l with
  | nil => rfl
  | cons p rest ih =>
    obtain ⟨k, e⟩ := p
    cases hv : isEntryValid nr now e <;> simp [cleanLoop, hv, ih]

/-- Splitting a list by a Bool predicate preserves total length. -/
theorem length_filter_partition (q : String × cacheEntry → Bool)
    (l : List (String × cacheEntry)) :
    (l.filter (fun p => !(q p))).length + (l.filter q).length = l.length := by
  induction l with
  | nil => rfl
  | cons p rest ih =>
    cases hq : q p <;> simp [List.filter_cons, hq] <;> omega

/-- C7: the cleanup sweep removes exactly the entries whose validity
check fails at call time and returns how many it removed; every entry
still within its TTL is kept unchanged (same binding, same order),
and the TTL configuration is untouched. -/
theorem cleanExpired_spec (nr : NameResolver) (now : Nat) :
    (CleanExpiredCache nr now).2.cache =
      nr.cache.filter (fun p => isEntryValid nr now p.2) ∧
    (CleanExpiredCache nr now).1 =
      (nr.cache.filter (fun p => !(isEntryValid nr now p.2))).length ∧
    (∀ (k : String) (e : cacheEntry), (k, e) ∈ (CleanExpiredCache nr now).2.cache ↔
      ((k, e) ∈ nr.cache ∧ isEntryValid nr now e = true)) ∧
    (CleanExpiredCache nr now).1 + (CleanExpiredCache nr now).2.cache.length
      = nr.cache.length ∧
    (CleanExpiredCache nr now).2.cacheTTL = nr.cacheTTL ∧
    (CleanExpiredCache nr now).2.notFoundTTL = nr.notFoundTTL := by
  have hl := cleanLoop_eq nr now nr.cache
  unfold CleanExpiredCache
  rw [hl]
  refine ⟨rfl, rfl, ?_, ?_, rfl, rfl⟩
  · intro k e
    simp [List.mem_filter]
  · simp only []
    exact length_filter_partition (fun p => isEntryValid nr now p.2) nr.cache

/-- The stats loop counts valid-positive, valid-negative and invalid
entries. -/
theorem statsLoop_eq (nr : NameResolver) (now : Nat) (l : List (String × cacheEntry)) :
    statsLoop nr now l =
      ((l.filter (fun p => isEntryValid nr now p.2 && !(p.2.notFound))).length,
        (l.filter (fun p => isEntryValid nr now p.2 && p.2.notFound)).length,
        (l.filter (fun p => !(isEntryValid nr now p.2))).length) := by
  induction l with
  | nil => rfl
  | cons p rest ih =>
    obtain ⟨k, e⟩ := p
    cases hv : isEntryValid nr now e with
    | false => simp [statsLoop, hv, ih]
    | true => cases hnf : e.notFound <;> simp [statsLoop, hv, hnf, ih]

/-- Every stored entry lands in exactly one of the three stats
classes. -/
theorem statsLoop_sum (nr : NameResolver) (now : Nat) (l : List (String × cacheEntry)) :
    (statsLoop nr now l).1 + (statsLoop nr now l).2.1 + (statsLoop nr now l).2.2
      = l.length := by
  induction l with
  | nil => rfl
  | cons p rest ih =>
    obtain ⟨k, e⟩ := p
    cases hv : isEntryValid nr now e with
    | false =>
      simp only [statsLoop, hv, Bool.not_false, if_true, List.length_cons]
      omega
    | true =>
      cases hnf : e.notFound <;>
        simp only [statsLoop, hv, hnf, Bool.not_true, Bool.false_eq_true, if_false,
          if_true, List.length_cons] <;> omega

/-- C8: with no expired entries the stats snapshot reports found = the
number of positive entries, not-found = the number of negative
entries, total their sum and expired zero; and in every state the
snapshot classifies every stored entry into exactly one of the three
classes (found + notFound + expired = total). The snapshot is a pure
function of the state and returns no new state. -/
theorem cacheStats_spec (nr : NameResolver) (now : Nat)
    (hall : ∀ p ∈ nr.cache, isEntryValid nr now p.2 = true) :
    (GetCacheStats nr now).found =
      (nr.cache.filter (fun p => !(p.2.notFound))).length ∧
    (GetCacheStats nr now).notFound =
      (nr.cache.filter (fun p => p.2.notFound)).length ∧
    (GetCacheStats nr now).total =
      (GetCacheStats nr now).found + (GetCacheStats nr now).notFound ∧
    (GetCacheStats nr now).expired = 0 ∧
    (∀ (other : NameResolver) (t : Nat),
      (GetCacheStats other t).found + (GetCacheStats other t).notFound +
        (GetCacheStats other t).expired = (GetCacheStats other t).total) := by
  have hs := statsLoop_eq nr now nr.cache
  have hfound : nr.cache.filter (fun p => isEntryValid nr now p.2 && !(p.2.notFound))
      = nr.cache.filter (fun p => !(p.2.notFound)) := by
    apply List.filter_congr
    intro a ha
    rw [hall a ha]
    simp
  have hnotFound : nr.cache.filter (fun p => isEntryValid nr now p.2 && p.2.notFound)
      = nr.cache.filter (fun p => p.2.notFound) := by
    apply List.filter_congr
    intro a ha
    rw [hall a ha]
    simp
  have hexp : nr.cache.filter (fun p => !(isEntryValid nr now p.2)) = [] := by
    rw [List.filter_eq_nil_iff]
    intro a ha
    rw [hall a ha]
    simp
  refine ⟨?_, ?_, ?_, ?_, ?_⟩
  · show (statsLoop nr now nr.cache).1 = _
    rw [hs, hfound]
  · show (statsLoop nr now nr.cache).2.1 = _
    rw [hs, hnotFound]
  · show nr.cache.length = (statsLoop nr now nr.cache).1 + (statsLoop nr now nr.cache).2.1
    have hsum := statsLoop_sum nr now nr.cache
    have hzero : (statsLoop nr now nr.cache).2.2 = 0 := by
      rw [hs]
      simp [hexp]
    omega
  · show (statsLoop nr now nr.cache).2.2 = 0
    rw [hs]
    simp [hexp]
  · intro other t
    show (statsLoop other t other.cache).1 + (statsLoop other t other.cache).2.1 +
      (statsLoop other t other.cache).2.2 = other.cache.length
    exact statsLoop_sum other t other.cache

/-- Witness for C8 on a state with one valid positive and one valid
negative entry: found 1, not-found 1, total 2, expired 0. -/
theorem cacheStats_spec_witness :
    (∀ p ∈ nrTwo.cache, isEntryValid nrTwo 3 p.2 = true) ∧
    (GetCacheStats nrTwo 3).found = 1 ∧
    (GetCacheStats nrTwo 3).notFound = 1 ∧
    (GetCacheStats nrTwo 3).total = (GetCacheStats nrTwo 3).found +
      (GetCacheStats nrTwo 3).notFound ∧
    (GetCacheStats nrTwo 3).expired = 0 :=
  ⟨by decide,
    ((cacheStats_spec nrTwo 3 (by decide)).1).trans (by decide),
    ((cacheStats_spec nrTwo 3 (by decide)).2.1).trans (by decide),
    (cacheStats_spec nrTwo 3 (by decide)).2.2.1,
    (cacheStats_spec nrTwo 3 (by decide)).2.2.2.1⟩

/-- A pair in the cache after an insert was either already there or is
the inserted binding. -/
theorem mem_cacheInsert (c : List (String × cacheEntry)) (id : String) (v : cacheEntry)
    (k : String) (e : cacheEntry) (h : (k, e) ∈ cacheInsert c id v) :
    (k, e) ∈ c ∨ (k = id ∧ e = v) := by
  induction c with
  | nil =>
    simp [cacheInsert] at h
    right
    exact h
  | cons p rest ih =>
    obtain ⟨k0, e0⟩ := p
    by_cases hk : k0 = id
    · rw [cacheInsert, if_pos hk] at h
      rcases List.mem_cons.mp h with h1 | h1
      · right
        exact ⟨congrArg Prod.fst h1, congrArg Prod.snd h1⟩
      · left
        exact List.mem_cons_of_mem _ h1
    · rw [cacheInsert, if_neg hk] at h
      rcases List.mem_cons.mp h with h1 | h1
      · left
        exact List.mem_cons.mpr (Or.inl h1)
      · rcases ih h1 with h2 | h2
        · left
          exact List.mem_cons_of_mem _ h2
        · right
          exact h2

/-- Every terminal branch of the backend chain inserts, for the
resolved id, an entry whose record echoes the id and which, when
negative, is exactly the id-only record. -/
theorem resolveBackend_state_shape (nr : NameResolver) (conn : TiDB) (now : Nat)
    (id : String) :
    ∃ v : cacheEntry, (resolveBackend nr conn now id).state.cache = cacheInsert nr.cache id v ∧
      v.info.id = id ∧ (v.notFound = true → v.info = idOnlyInfo id) := by
  have hmiss : ∃ v : cacheEntry,
      (resolveMiss nr now id).state.cache = cacheInsert nr.cache id v ∧
      v.info.id = id ∧ (v.notFound = true → v.info = idOnlyInfo id) :=
    ⟨⟨idOnlyInfo id, true, now⟩, rfl, rfl, fun _ => rfl⟩
  have h4 : ∃ v : cacheEntry,
      (resolveStep4 nr conn now id).state.cache = cacheInsert nr.cache id v ∧
      v.info.id = id ∧ (v.notFound = true → v.info = idOnlyInfo id) := by
    unfold resolveStep4
    cases getClusterName conn id with
    | ok n =>
      by_cases hn : n ≠ ""
      · refine ⟨⟨⟨"cluster", id, n, "", ""⟩, false, now⟩, ?_, rfl, fun hc => nomatch hc⟩
        simp [if_pos hn]
      · obtain ⟨v, hv1, hv2, hv3⟩ := hmiss
        refine ⟨v, ?_, hv2, hv3⟩
        rw [← hv1]
        simp [if_neg hn]
    | error e => exact hmiss
  have h3 : ∃ v : cacheEntry,
      (resolveStep3 nr conn now id).state.cache = cacheInsert nr.cache id v ∧
      v.info.id = id ∧ (v.notFound = true → v.info = idOnlyInfo id) := by
    unfold resolveStep3
    cases getTenantName conn id with
    | ok n =>
      by_cases hn : n ≠ ""
      · refine ⟨⟨⟨"tenant", id, n, "", ""⟩, false, now⟩, ?_, rfl, fun hc => nomatch hc⟩
        simp [if_pos hn]
      · obtain ⟨v, hv1, hv2, hv3⟩ := h4
        refine ⟨v, ?_, hv2, hv3⟩
        rw [← hv1]
        simp [if_neg hn]
    | error e => exact h4
  have h2 : ∃ v : cacheEntry,
      (resolveStep2 nr conn now id).state.cache = cacheInsert nr.cache id v ∧
      v.info.id = id ∧ (v.notFound = true → v.info = idOnlyInfo id) := by
    unfold resolveStep2
    cases getTenant conn id with
    | ok o =>
      cases o with
      | some r =>
        exact ⟨⟨⟨"tenant", id, r.tenantName, "", ""⟩, false, now⟩, rfl, rfl,
          fun hc => nomatch hc⟩
      | none => exact h3
    | error e => exact h3
  unfold resolveBackend
  cases getCluster conn id with
  | ok o =>
    cases o with
    | some ci =>
      exact ⟨⟨⟨"cluster", id, (computeClusterName conn id ci).1, ci.tenantID,
        ci.tenantName⟩, false, now⟩, rfl, rfl, fun hc => nomatch hc⟩
    | none => exact h2
  | error e => exact h2

/-- Any Resolve call either leaves the cache untouched or inserts, for
the resolved id, an entry whose record echoes the id and which, when
negative, is the id-only record. -/
theorem resolve_state_shape (nr : NameResolver) (tidb : Option TiDB) (now : Nat)
    (id : String) :
    (Resolve nr tidb now id).state.cache = nr.cache ∨
    (∃ v : cacheEntry, (Resolve nr tidb now id).state.cache = cacheInsert nr.cache id v ∧
      v.info.id = id ∧ (v.notFound = true → v.info = idOnlyInfo id)) := by
  have hnc : ∀ m : NameResolver,
      (Resolve.resolveNoCache m tidb now id).state.cache = m.cache ∨
      (∃ v : cacheEntry,
        (Resolve.resolveNoCache m tidb now id).state.cache = cacheInsert m.cache id v ∧
        v.info.id = id ∧ (v.notFound = true → v.info = idOnlyInfo id)) := by
    intro m
    cases tidb with
    | none => exact Or.inl rfl
    | some conn => exact Or.inr (resolveBackend_state_shape m conn now id)
  unfold Resolve
  by_cases he : id = ""
  · rw [if_pos he]
    exact Or.inl rfl
  · rw [if_neg he]
    cases hs : isNumeric id with
    | false =>
      simp only [hs, Bool.not_false, if_true]
      exact Or.inl (by trivial)
    | true =>
      simp only [hs, Bool.not_true, Bool.false_eq_true, if_false]
      cases hlook : cacheLookup nr.cache id with
      | none => exact hnc nr
      | some entry =>
        cases hv : isEntryValid nr now entry with
        | false =>
          simp only [hv, Bool.false_eq_true, if_false]
          exact hnc nr
        | true =>
          simp only [hv, if_true]
          cases entry.notFound <;> exact Or.inl (by trivial)

/-- The resolver states reachable through the public operations from
the freshly constructed resolver. -/
inductive Reachable : NameResolver → Prop where
  | init : Reachable GetNameResolver
  | resolveStep (nr : NameResolver) (tidb : Option TiDB) (now : Nat) (id : String) :
      Reachable nr → Reachable (Resolve nr tidb now id).state
  | clearStep (nr : NameResolver) : Reachable nr → Reachable (ClearCache nr)
  | cleanStep (nr : NameResolver) (now : Nat) :
      Reachable nr → Reachable (CleanExpiredCache nr now).2

/-- C10: in every reachable cache state, each entry stored under a key
has a record whose id field equals that key, and every negative entry
holds exactly the id-only record (empty kind, tenant id and tenant
name). -/
theorem reachable_cache_wellformed (nr : NameResolver) (h : Reachable nr) :
    ∀ (k : String) (e : cacheEntry), (k, e) ∈ nr.cache →
      e.info.id = k ∧ (e.notFound = true → e.info = idOnlyInfo k) := by
  induction h with
  | init =>
    intro k e hm
    simp [GetNameResolver] at hm
  | resolveStep nr tidb now id hr ih =>
    intro k e hm
    rcases resolve_state_shape nr tidb now id with hs | ⟨v, hs, hid, hneg⟩
    · rw [hs] at hm
      exact ih k e hm
    · rw [hs] at hm
      rcases mem_cacheInsert nr.cache id v k e hm with hm2 | ⟨hk, he⟩
      · exact ih k e hm2
      · subst hk
        subst he
        exact ⟨hid, hneg⟩
  | clearStep nr hr ih =>
    intro k e hm
    simp [ClearCache] at hm
  | cleanStep nr now hr ih =>
    intro k e hm
    have hc : (CleanExpiredCache nr now).2.cache =
        nr.cache.filter (fun p => isEntryValid nr now p.2) := by
      unfold CleanExpiredCache
      rw [cleanLoop_eq]
    rw [hc] at hm
    exact ih k e (List.mem_filter.mp hm).1

/-- Witness for C10 at the reachable state produced by a definitive
miss for id 12: its negative entry is exactly the id-only record. -/
theorem reachable_cache_wellformed_witness :
    (("12", (⟨idOnlyInfo "12", true, 0⟩ : cacheEntry)) ∈
      (Resolve GetNameResolver (some connDown) 0 "12").state.cache) ∧
    ((⟨idOnlyInfo "12", true, 0⟩ : cacheEntry).info.id = "12" ∧
      ((⟨idOnlyInfo "12", true, 0⟩ : cacheEntry).notFound = true →
        (⟨idOnlyInfo "12", true, 0⟩ : cacheEntry).info = idOnlyInfo "12")) :=
  ⟨by decide,
    reachable_cache_wellformed (Resolve GetNameResolver (some connDown) 0 "12").state
      (Reachable.resolveStep GetNameResolver (some connDown) 0 "12" Reachable.init)
      "12" ⟨idOnlyInfo "12", true, 0⟩ (by decide)⟩
